import Mathlib

/-!
Verification of the ml_paper_visualizer extraction pipeline.

This file is a shallow embedding, in Lean 4, of the Python services of the
repository `ml_paper_visualizer` (backend/app), restricted to the parts the
verified claims are about:

* `app/core/models.py` — the data model (`ComponentType`, `PaperType`,
  `Component`, `Relationship`, `Section`, `LocationInfo`);
* `app/services/relationship_extraction.py` — `extract_relationships`,
  `_generate_fallback_relationships`, `analyze_relationships`;
* `app/services/component_extraction.py` — `extract_components_from_text`,
  `_parse_hierarchical_response`, `_validate_component_type`,
  `_create_component`, `_create_minimal_components`,
  `extract_components_fallback`;
* `app/services/paper_characterization.py` — `characterize_paper`,
  `_validate_paper_type`, `_validate_section`;
* `app/services/visualization_generator.py` — `generate_mermaid_diagram`.

Modelling conventions:

* The external language-model call is a collaborator.  Each embedded
  service function therefore takes the model's response as an argument.
  The response is given already classified by the outcome of the string
  level steps the Python code performs on it (`json.loads`, the
  `startswith('{"error":')` check, the fenced-block regex): each
  constructor of the response inductives below corresponds to exactly one
  branch of that string-level dispatch.
* JSON values are modelled by the inductive `JValue`; Python dicts by
  association lists in key insertion order (Python ≥ 3.7 dicts preserve
  insertion order, and updating an existing key keeps its position).
* `uuid.uuid4()` default ids (pydantic `default_factory`) are modelled by
  an injected supply `uuids : Nat → String`: the n-th object created by a
  run receives id `uuids n`.  Creation order equals output-list order in
  all embedded functions, so ids are assigned positionally.
* Machine floats appear only in the unused `confidence` field; it is kept
  as an uninterpreted `JValue`.
* pydantic field validation is modelled strictly: a `str` field accepts
  exactly JSON strings, a `bool` field exactly JSON booleans, an
  `Optional[int]` field exactly JSON integers or null, a `Dict` field
  exactly JSON objects.  A failed validation raises, and every embedded
  function reproduces the `try/except` structure of its source.
* `ComponentType.DATA_COLLECTION` and `ComponentType.DATA_PARTITION` are
  referenced by `relationship_extraction.py` and
  `visualization_generator.py` but are *not* members of the
  `ComponentType` enum in `app/core/models.py`; evaluating these
  attribute accesses raises `AttributeError`.  The embedding makes this
  explicit with `PyError.attributeError`.
-/

namespace MLViz

/-! ## JSON values and Python-dict association lists -/

/-- A JSON value, as produced by `json.loads`.  Numbers are restricted to
integers: no claim involves fractional JSON numbers, and the Python code
never does arithmetic on them. -/
inductive JValue where
  | null : JValue
  | bool (b : Bool) : JValue
  | num (n : Int) : JValue
  | str (s : String) : JValue
  | arr (elems : List JValue) : JValue
  | obj (fields : List (String × JValue)) : JValue

/-- Python dict lookup `d.get(k)` (first binding; parsed JSON objects have
unique keys). -/
def jlookup {α : Type} (fields : List (String × α)) (k : String) : Option α :=
  match fields with
  | [] => none
  | (k', v) :: rest => if k' = k then some v else jlookup rest k

/-- Python dict lookup with default, `d.get(k, dflt)`. -/
def jlookupD (fields : List (String × JValue)) (k : String) (dflt : JValue) : JValue :=
  (jlookup fields k).getD dflt

/-- Python dict membership `k in d`. -/
def jhasKey (fields : List (String × JValue)) (k : String) : Bool :=
  (jlookup fields k).isSome

/-- Python dict assignment `d[k] = v`: replaces the value in place if the
key exists, otherwise appends the binding. -/
def jset {α : Type} (fields : List (String × α)) (k : String) (v : α) :
    List (String × α) :=
  match fields with
  | [] => [(k, v)]
  | (k', v') :: rest => if k' = k then (k, v) :: rest else (k', v') :: jset rest k v

/-- Python truthiness of a JSON value (`bool(x)`), used by checks such as
`if not section_data.get(field)`. -/
def jtruthy : JValue → Bool
  | .null => false
  | .bool b => b
  | .num n => n ≠ 0
  | .str s => s ≠ ""
  | .arr l => !l.isEmpty
  | .obj l => !l.isEmpty

/-! ### Python string primitives

Character-level, structurally recursive models of the Python string
methods the services use (`str.upper`, `str.lower`, `str.strip`,
`str.replace`, substring containment), so that every theorem below can
be evaluated by kernel reduction. -/

/-- Python `str.upper()` (ASCII case mapping suffices for every string
the services produce). -/
def pyUpper (s : String) : String := ⟨s.data.map Char.toUpper⟩

/-- Python `str.lower()`. -/
def pyLower (s : String) : String := ⟨s.data.map Char.toLower⟩

/-- Drop leading whitespace characters. -/
def dropLeadingWS : List Char → List Char
  | [] => []
  | c :: cs => if c.isWhitespace then dropLeadingWS cs else c :: cs

/-- Python `str.strip()`. -/
def pyStrip (s : String) : String :=
  ⟨((dropLeadingWS ((dropLeadingWS s.data).reverse)).reverse)⟩

/-- Whether `pat` starts the character list `l`. -/
def leadsWith : List Char → List Char → Bool
  | [], _ => true
  | _ :: _, [] => false
  | a :: as, b :: bs => a == b && leadsWith as bs

/-- Whether the pattern occurs anywhere in the character list. -/
def containsSeq (pat : List Char) : List Char → Bool
  | [] => pat.isEmpty
  | c :: cs => leadsWith pat (c :: cs) || containsSeq pat cs

/-- Whether `pat` occurs as a substring of `s` (Python `pat in s`). -/
def strContains (s pat : String) : Bool := containsSeq pat.data s.data

/-- Python `s.replace(pat, "")` for a single-character pattern (the only
replacement the services perform, `str(e).replace('"', '')`): removes
every occurrence of the character. -/
def pyRemoveChar (s : String) (c : Char) : String :=
  ⟨s.data.filter (fun a => a ≠ c)⟩

/-- A raised Python exception, at the granularity the claims need. -/
inductive PyError where
  | attributeError : PyError
  | validationError : PyError
deriving DecidableEq, Repr

/-! ## Data model (`app/core/models.py`) -/

/-- `ComponentType(str, Enum)` of `models.py` lines 22–35.  Exactly these
twelve members are defined; in particular there is **no**
`DATA_COLLECTION` and no `DATA_PARTITION` member. -/
inductive ComponentType where
  | DATASET | PREPROCESSING | MODEL | TRAINING | EVALUATION | RESULTS | OTHER
  | LAYER | MODULE | HYPERPARAMETER | ALGORITHM | METRIC
deriving DecidableEq, Repr

/-- The `.value` string of each `ComponentType` member. -/
def ComponentType.value : ComponentType → String
  | .DATASET => "dataset"
  | .PREPROCESSING => "preprocessing"
  | .MODEL => "model"
  | .TRAINING => "training"
  | .EVALUATION => "evaluation"
  | .RESULTS => "results"
  | .OTHER => "other"
  | .LAYER => "layer"
  | .MODULE => "module"
  | .HYPERPARAMETER => "hyperparameter"
  | .ALGORITHM => "algorithm"
  | .METRIC => "metric"

/-- All members of the closed enumeration. -/
def ComponentType.all : List ComponentType :=
  [.DATASET, .PREPROCESSING, .MODEL, .TRAINING, .EVALUATION, .RESULTS, .OTHER,
   .LAYER, .MODULE, .HYPERPARAMETER, .ALGORITHM, .METRIC]

/-- Enum value lookup `ComponentType(s)`: succeeds exactly on the `.value`
string of a member (exact, case-sensitive match, as for any Python
`Enum`), otherwise raises `ValueError` (here: `none`). -/
def ComponentType.ofValue (s : String) : Option ComponentType :=
  ComponentType.all.find? (fun t => t.value = s)

/-- `PaperType(str, Enum)` of `models.py` lines 15–20. -/
inductive PaperType where
  | NEW_ARCHITECTURE | SURVEY | APPLICATION | THEORETICAL | UNKNOWN
deriving DecidableEq, Repr

/-- The `.value` string of each `PaperType` member. -/
def PaperType.value : PaperType → String
  | .NEW_ARCHITECTURE => "new_architecture"
  | .SURVEY => "survey"
  | .APPLICATION => "application"
  | .THEORETICAL => "theoretical"
  | .UNKNOWN => "unknown"

/-- Enum value lookup `PaperType(s)`. -/
def PaperType.ofValue (s : String) : Option PaperType :=
  [PaperType.NEW_ARCHITECTURE, .SURVEY, .APPLICATION, .THEORETICAL, .UNKNOWN].find?
    (fun t => t.value = s)

/-- `Component` of `models.py` lines 51–61.  The `location` field (never
set by the embedded services) is omitted.  `details` is the free-form
dict. -/
structure Component where
  id : String
  paper_id : String
  type : ComponentType
  name : String
  description : String
  details : List (String × JValue) := []
  source_section : Option String := none
  source_page : Option Int := none
  is_novel : Bool := false

/-- `Relationship` of `models.py` lines 63–69. -/
structure Relationship where
  id : String
  paper_id : String
  source_id : String
  target_id : String
  type : String
  description : String
deriving DecidableEq, Repr

/-- `LocationInfo` of `models.py` lines 37–40. -/
structure LocationInfo where
  page : Option Int := none
  paragraph : Option Int := none
  position : Option Int := none

/-- `Section` of `models.py` lines 42–49.  The uuid4-defaulted `id` field
is omitted (no claim touches it). -/
structure Section where
  name : String
  title : String
  start_location : LocationInfo
  end_location : LocationInfo
  summary : String
  text : Option String := none

/-- Assign uuid4 default ids to relationships in creation order
(`Relationship` is created without an explicit `id` by the extraction
services, so pydantic draws `uuids 0`, `uuids 1`, … in order). -/
def assignRelIds (uuids : Nat → String) : Nat → List Relationship → List Relationship
  | _, [] => []
  | k, r :: rs => { r with id := uuids k } :: assignRelIds uuids (k + 1) rs

/-- Assign uuid4 default ids to components in creation order. -/
def assignCompIds (uuids : Nat → String) : Nat → List Component → List Component
  | _, [] => []
  | k, c :: cs => { c with id := uuids k } :: assignCompIds uuids (k + 1) cs

/-! ## RelationshipExtractionService (`app/services/relationship_extraction.py`) -/

/-- One item of the model-proposed relationship list, i.e. one element of
`relationships_list` in `extract_relationships` (lines 135–168).  A
non-dict element is `notDict` (skipped by the loop).  A dict element
carries its four relevant entries as read by `item.get(...)`: `none`
models an absent key.  Values are restricted to strings — a non-string
value under one of these keys either makes the item fall into a drop
branch or raises inside the loop (`.upper()` on a non-string), in which
case the whole call returns `[]`; both outcomes keep every theorem below
true and are not separately modelled. -/
inductive RelItem where
  | notDict : RelItem
  | edge (source_component_id target_component_id relationship_type description :
      Option String) : RelItem

/-- Outcome of the string-level processing of the model response in
`extract_relationships` (lines 101–132): the `not response_str /
startswith('{"error":')` check, `json.loads`, and the shape dispatch on
the parsed value. -/
inductive RelResponse where
  /-- `response_str` empty/None, or starting with `'{"error":'` (line 107). -/
  | failure : RelResponse
  /-- parsed to a dict whose `relationships` value is a list (line 118). -/
  | objRelList (items : List RelItem) : RelResponse
  /-- parsed to a dict with a non-list `relationships` value (line 122). -/
  | objRelNotList : RelResponse
  /-- parsed to a dict without a `relationships` key, or to a non-list,
  non-dict JSON value (line 130). -/
  | otherShape : RelResponse
  /-- `json.loads` raised `JSONDecodeError` (line 172). -/
  | badJson : RelResponse
  /-- parsed directly to a list (line 126). -/
  | list (items : List RelItem) : RelResponse

/-- The body of the `for item in relationships_list` loop of
`extract_relationships` (lines 135–168) for a single item: returns the
`Relationship` appended for it, or `none` when the item is skipped.
`component_ids` is the id set built on line 82.  The first guard models
the Python falsiness check `not source_id or not target_id or not
rel_type` (line 146): an absent key (`None`) and the empty string are
both falsy, so the two `none`-id prongs and the emptiness disjunction
together are exactly that check.  The created `Relationship` still lacks
its uuid4 id (assigned positionally by the caller). -/
def keptEdge (paper_id : String) (component_ids : List String) : RelItem →
    Option Relationship
  | .notDict => none
  | .edge none _ _ _ => none
  | .edge (some _) none _ _ => none
  | .edge (some src) (some tgt) rel_type descr =>
    -- line 146 (continued): empty source, target, or type string → skipped;
    -- rel_type defaults to "RELATED_TO" when the key is absent (line 142)
    if src = "" ∨ tgt = "" ∨ rel_type.getD "RELATED_TO" = "" then none
    -- line 151: both ids must exist among the input components
    else if src ∉ component_ids ∨ tgt ∉ component_ids then none
    -- line 156: drop self-references
    else if src = tgt then none
    else some { id := "", paper_id := paper_id, source_id := src,
                target_id := tgt, type := pyUpper (rel_type.getD "RELATED_TO"),
                description := descr.getD "" }

/-- `extract_relationships` (lines 55–184).  `paper_type` and
`paper_text` are accepted and ignored exactly as in the source (the
prompt built from the components is consumed by the model collaborator,
whose response is the `response` argument).  The `json.dumps`
serialization guard of lines 85–89 cannot fire (every embedded
`Component` is serializable) and is not modelled.  Note that the
fallback generation calls on lines 68 and 180–182 are commented out in
the source: every failure branch returns `[]`. -/
def extract_relationships (paper_id : String) (_paper_type : PaperType)
    (components : List Component) (_paper_text : String)
    (response : RelResponse) (uuids : Nat → String) : List Relationship :=
  -- line 65: fewer than two components → skip the model call, return []
  if components.length < 2 then []
  else
    let component_ids := components.map (·.id)
    match response with
    | .failure => []        -- line 110
    | .objRelNotList => []  -- line 124
    | .otherShape => []     -- line 132
    | .badJson => []        -- line 174
    | .objRelList items | .list items =>
      assignRelIds uuids 0 (items.filterMap (keptEdge paper_id component_ids))

/-- `_generate_fallback_relationships` (lines 186–288).  For fewer than
two components it returns `[]` (line 202).  Otherwise line 206 builds the
`type_order` dict literal, whose first key expression
`ComponentType.DATA_COLLECTION` raises `AttributeError` —
`app/core/models.py` defines no such member — so the call raises before
any relationship is created; lines 220–288 are unreachable. -/
def generateFallbackRelationships (_paper_id : String)
    (components : List Component) : Except PyError (List Relationship) :=
  if components.length < 2 then .ok []
  else .error .attributeError

/-! ## `analyze_relationships` (lines 290–336) -/

/-- Python dict counter update `d[k] = d.get(k, 0) + 1`: bumps the count
in place if the key exists (keeping its position), else appends `(k, 1)`. -/
def bump (m : List (String × Nat)) (k : String) : List (String × Nat) :=
  match m with
  | [] => [(k, 1)]
  | (k', v) :: rest => if k' = k then (k, v + 1) :: rest else (k', v) :: bump rest k

/-- One entry of the `central_components` result list (lines 325–330). -/
structure CentralComponent where
  id : String
  name : String
  type : String
  connections : Nat
deriving DecidableEq, Repr

/-- The dict returned by `analyze_relationships` (lines 332–336). -/
structure RelationshipAnalysis where
  relationship_types : List (String × Nat)
  central_components : List CentralComponent
  total_relationships : Nat

/-- Stable insertion into a list sorted by descending count: the new
element goes before the first element whose count is `≤` its own.  Used
to model Python's stable `sorted(..., key=lambda x: x[1], reverse=True)`
(line 314): `sortByCountDesc` below is a stable descending sort. -/
def insertByCountDesc (x : String × Nat) : List (String × Nat) → List (String × Nat)
  | [] => [x]
  | y :: ys => if y.2 ≤ x.2 then x :: y :: ys else y :: insertByCountDesc x ys

/-- Stable sort by descending count (model of CPython's stable `sorted`
with `key=lambda x: x[1], reverse=True`). -/
def sortByCountDesc : List (String × Nat) → List (String × Nat)
  | [] => []
  | x :: xs => insertByCountDesc x (sortByCountDesc xs)

/-- `analyze_relationships` (lines 290–336): counts relationships by
type, counts connections (in+out) per component id, sorts the connection
counts by descending count (stable, so ties keep dict insertion order =
first appearance among the relationships' endpoints, source before
target), takes the top three, and resolves each id against `components`
(line 323), silently skipping ids with no matching component. -/
def analyze_relationships (components : List Component)
    (relationships : List Relationship) : RelationshipAnalysis :=
  let rel_types := relationships.foldl (fun m r => bump m r.type) []
  let connections :=
    relationships.foldl (fun m r => bump (bump m r.source_id) r.target_id) []
  let sorted := sortByCountDesc connections
  let central := (sorted.take 3).filterMap (fun p =>
    (components.find? (fun c => c.id = p.1)).map (fun c =>
      { id := c.id, name := c.name, type := c.type.value, connections := p.2 }))
  { relationship_types := rel_types, central_components := central,
    total_relationships := relationships.length }

/-! ## ComponentExtractionService (`app/services/component_extraction.py`) -/

/-- Strict-mode pydantic validation of a `str` field. -/
def pyStr : JValue → Except PyError String
  | .str s => .ok s
  | _ => .error .validationError

/-- pydantic validation of an `Optional[str]` field. -/
def pyOptStr : Option JValue → Except PyError (Option String)
  | none => .ok none
  | some .null => .ok none
  | some (.str s) => .ok (some s)
  | some _ => .error .validationError

/-- pydantic validation of a `bool` field. -/
def pyBool : JValue → Except PyError Bool
  | .bool b => .ok b
  | _ => .error .validationError

/-- pydantic validation of a `Dict[str, Any]` field. -/
def pyObj : JValue → Except PyError (List (String × JValue))
  | .obj fields => .ok fields
  | _ => .error .validationError

/-- The raw value handed to `_validate_component_type`: a plain string,
an already-constructed `ComponentType` member (which, subclassing `str`,
is handled by the string branch of the source), or anything else. -/
inductive TypeVal where
  | str (s : String) : TypeVal
  | enum (t : ComponentType) : TypeVal
  | otherVal : TypeVal

/-- `_validate_component_type` (lines 218–230).  For a string it computes
`ComponentType(component_type.upper())`, falling back to `OTHER` on
`ValueError`; any non-string value falls back to `OTHER`.  Since every
`ComponentType.value` is lowercase while the lookup argument has been
uppercased, the enum lookup fails for every string.  A `ComponentType`
member is itself a `str` instance (`ComponentType(str, Enum)`), so it is
caught by the `isinstance(component_type, str)` check on line 220 — its
string content is the member's `.value`, which is uppercased and then
fails the lookup like any other string; the
`elif isinstance(component_type, ComponentType)` branch on line 226 is
dead code. -/
def validateComponentType : TypeVal → ComponentType
  | .str s => (ComponentType.ofValue (pyUpper s)).getD .OTHER
  | .enum t => (ComponentType.ofValue (pyUpper t.value)).getD .OTHER
  | .otherVal => .OTHER

/-- View of a JSON value as a `_validate_component_type` argument (parsed
JSON never contains an enum member). -/
def typeValOfJ : JValue → TypeVal
  | .str s => .str s
  | _ => .otherVal

/-- Placeholder for `str(e)` of a pydantic `ValidationError` (the exact
message is irrelevant to every claim). -/
def validationErrorMessage : String := "validation error"

/-- The keys required of every component node by
`_parse_hierarchical_response` (line 178). -/
def requiredKeys : List String :=
  ["ai_component_id", "category", "type", "name", "description", "details",
   "is_novel", "children"]

/-- The `Component(...)` construction of `_parse_hierarchical_response`
(lines 186–197): type validated by `_validate_component_type`,
`source_section` taken from the stage name (`stage_data.get('stage_name')`,
which may be absent or a non-string).  Field validation may raise.  The
uuid4 id is assigned positionally by the caller. -/
def mkParsedComponent (paper_id : String) (stage : Option JValue)
    (fields : List (String × JValue)) : Except PyError Component := do
  let t := validateComponentType (typeValOfJ (jlookupD fields "type" .null))
  let name ← pyStr (jlookupD fields "name" .null)
  let descr ← pyStr (jlookupD fields "description" .null)
  let details ← pyObj (jlookupD fields "details" .null)
  let is_novel ← match jlookup fields "is_novel" with
    | none => pure false
    | some v => pyBool v
  let source_section ← pyOptStr stage
  return { id := "", paper_id := paper_id, type := t, name := name,
           description := descr, details := details,
           source_section := source_section, is_novel := is_novel }

/-- `comp_data.get('children')` when it is a list, else `[]` (the code
recurses only `if isinstance(comp_data.get('children'), list) and
comp_data['children']`; recursing on `[]` is a no-op either way). -/
def childrenList (fields : List (String × JValue)) : List JValue :=
  match jlookup fields "children" with
  | some (.arr cl) => cl
  | _ => []

theorem jlookup_sizeOf {fields : List (String × JValue)} {k : String} {v : JValue}
    (h : jlookup fields k = some v) : sizeOf v < sizeOf fields := by
  induction fields with
  | nil => simp [jlookup] at h
  | cons p rest ih =>
    obtain ⟨k', v'⟩ := p
    simp only [jlookup] at h
    split at h
    · cases h
      simp
      omega
    · have := ih h
      simp
      omega

theorem childrenList_sizeOf (fields : List (String × JValue)) :
    sizeOf (childrenList fields) ≤ 1 + sizeOf fields := by
  unfold childrenList
  split
  · rename_i cl h
    have := jlookup_sizeOf h
    simp at this
    omega
  · simp

/-- The recursive `traverse` helper of `_parse_hierarchical_response`
(lines 172–202).  Returns the components appended so far together with an
abort flag: a raised pydantic `ValidationError` inside the loop
propagates out of `traverse` (and out of the surrounding stage loop) to
the `except` of `_parse_hierarchical_response`, which returns the partial
list.  Non-dict items and items missing a required key are skipped. -/
def traverseComponents (paper_id : String) (stage : Option JValue) :
    List JValue → List Component × Bool
  | [] => ([], false)
  | v :: rest =>
    match v with
    | .obj fields =>
      if requiredKeys.all (jhasKey fields) then
        match mkParsedComponent paper_id stage fields with
        | .error _ => ([], true)
        | .ok c =>
          let childRes := traverseComponents paper_id stage (childrenList fields)
          if childRes.2 then (c :: childRes.1, true)
          else
            let restRes := traverseComponents paper_id stage rest
            (c :: (childRes.1 ++ restRes.1), restRes.2)
      else traverseComponents paper_id stage rest
    | _ => traverseComponents paper_id stage rest
termination_by l => sizeOf l
decreasing_by
  · have := childrenList_sizeOf fields
    simp
    omega
  · simp
  · simp
  · simp

/-- The `for stage_data in data.get('pipeline_stages', [])` loop of
`_parse_hierarchical_response` (lines 205–207): stages that are not dicts
or whose `components` value is not a list are skipped; an abort inside
`traverse` stops the whole loop. -/
def stagesLoop (paper_id : String) : List JValue → List Component × Bool
  | [] => ([], false)
  | s :: rest =>
    match s with
    | .obj sf =>
      match jlookup sf "components" with
      | some (.arr comps) =>
        let r := traverseComponents paper_id (jlookup sf "stage_name") comps
        if r.2 then (r.1, true)
        else
          let rr := stagesLoop paper_id rest
          (r.1 ++ rr.1, rr.2)
      | _ => stagesLoop paper_id rest
    | _ => stagesLoop paper_id rest

/-- `_parse_hierarchical_response` (lines 161–216) applied to an already
`json.loads`-parsed value.  A non-dict root or a missing
`pipeline_stages` key yields `[]` (line 167); a non-list
`pipeline_stages` value makes the `for` raise `TypeError`, caught on line
213, returning the (empty) partial list.  uuid4 ids are assigned in
creation order. -/
def parseHierarchicalResponse (paper_id : String) (v : JValue)
    (uuids : Nat → String) : List Component :=
  match v with
  | .obj fields =>
    if jhasKey fields "pipeline_stages" then
      match jlookup fields "pipeline_stages" with
      | some (.arr stages) => assignCompIds uuids 0 (stagesLoop paper_id stages).1
      | _ => []
    else []
  | _ => []

/-- `_create_minimal_components` (lines 264–283): the single synthetic
`OTHER` component produced when every extraction path has failed. -/
def createMinimalComponents (paper_id : String) (paper_type : Option PaperType)
    (uuids : Nat → String) : List Component :=
  let vt := paper_type.getD .UNKNOWN
  [{ id := uuids 0, paper_id := paper_id, type := .OTHER,
     name := "Paper Content (" ++ vt.value ++ ")",
     description := "Automatic component extraction failed. Manual review recommended.",
     details := [("extraction_note", .str "Created as fallback when extraction failed"),
                 ("paper_type", .str vt.value)],
     source_section := some "full_paper", is_novel := false }]

/-- `_create_component` (lines 232–262): total.  A falsy `name` raises
`ValueError`; that and any pydantic validation error are caught by the
internal `except`, which builds the `Extraction Error Component` of type
`OTHER` instead.  The uuid4 id is assigned positionally by the caller. -/
def createComponent (paper_id section_name : String)
    (fields : List (String × JValue)) : Component :=
  let errorComponent : Component :=
    { id := "", paper_id := paper_id, type := .OTHER,
      name := "Extraction Error Component",
      description := "Component extraction failed: " ++ validationErrorMessage,
      details := [("error", .str validationErrorMessage), ("original_data", .obj fields)],
      source_section := some section_name, is_novel := false }
  if ¬ jtruthy (jlookupD fields "name" .null) then errorComponent
  else
    let built : Except PyError Component := do
      let t := validateComponentType (typeValOfJ (jlookupD fields "type" (.str "OTHER")))
      let name ← pyStr (jlookupD fields "name" .null)
      let descr ← pyStr (jlookupD fields "description" (.str ""))
      let details ← pyObj (jlookupD fields "details" (.obj []))
      let is_novel ← match jlookup fields "is_novel" with
        | none => pure false
        | some v => pyBool v
      return { id := "", paper_id := paper_id, type := t, name := name,
               description := descr, details := details,
               source_section := some section_name, is_novel := is_novel }
    match built with
    | .ok c => c
    | .error _ => errorComponent

/-- Outcome of `process_with_prompt(..., output_format="json")` followed
by the duck-typed shape dispatch of `extract_components_fallback` (lines
313–346).  The processor returns either a parsed JSON value or a dict
containing an `"error"` key; a string result is itself `json.loads`-ed
again by the service.  Constructors `objComponents`/`objOther` cover
dicts *without* an `"error"` key (the error check on line 314 comes
first). -/
inductive FallbackResp where
  /-- a dict containing an `"error"` key (line 314). -/
  | errorDict : FallbackResp
  /-- directly a JSON list (line 320). -/
  | arr (items : List JValue) : FallbackResp
  /-- a string that `json.loads` to a list (line 325). -/
  | strList (items : List JValue) : FallbackResp
  /-- a string that `json.loads` to a dict with a `components` list (line 327). -/
  | strObjComponents (items : List JValue) : FallbackResp
  /-- a string that fails to parse, or parses to any other shape (lines 331–336). -/
  | strOther : FallbackResp
  /-- a dict (no `"error"` key) with a `components` list (line 338). -/
  | objComponents (items : List JValue) : FallbackResp
  /-- a dict with neither an `"error"` key nor a `components` list (line 342). -/
  | objOther : FallbackResp
  /-- any other response type (line 344). -/
  | otherVal : FallbackResp

/-- `extract_components_fallback` (lines 285–359): every branch that
cannot produce a component list returns the minimal synthetic component;
dict items of the recovered list each yield exactly one component via
`_create_component` (which never raises); non-dict items are skipped
(line 350); an empty result is replaced by the minimal component
(line 355). -/
def extract_components_fallback (paper_id : String) (paper_type : PaperType)
    (_combined_text : String) (resp : FallbackResp) (uuids : Nat → String) :
    List Component :=
  match resp with
  | .errorDict | .strOther | .objOther | .otherVal =>
    createMinimalComponents paper_id (some paper_type) uuids
  | .arr items | .strList items | .strObjComponents items | .objComponents items =>
    let comps := items.filterMap (fun it =>
      match it with
      | .obj fields => some (createComponent paper_id "full_paper" fields)
      | _ => none)
    if comps.isEmpty then createMinimalComponents paper_id (some paper_type) uuids
    else assignCompIds uuids 0 comps

/-- Outcome of the string-level checks of `extract_components_from_text`
on the primary model response (lines 122–144). -/
inductive PrimaryResp where
  /-- `response_str` was `None` or `""` (line 123). -/
  | empty : PrimaryResp
  /-- `response_str` started with `'{"error":'` (line 133). -/
  | procError : PrimaryResp
  /-- `json.loads` inside `_parse_hierarchical_response` raised (line 211). -/
  | badJson : PrimaryResp
  /-- `json.loads` succeeded with this value. -/
  | json (v : JValue) : PrimaryResp

/-- `extract_components_from_text` (lines 97–159): the primary
hierarchical parse, falling back to `extract_components_fallback` when
the response is empty, an error, unparseable, or parses to zero
components (lines 123–153).  The outer `except` (lines 157–159,
returning `[]`) is unreachable here: the model response is injected
already classified, and every inner helper catches its own
exceptions. -/
def extract_components_from_text (paper_id : String) (paper_type : PaperType)
    (paper_text : String) (primary : PrimaryResp) (fallback : FallbackResp)
    (uuids : Nat → String) : List Component :=
  match primary with
  | .empty => extract_components_fallback paper_id paper_type paper_text fallback uuids
  | .procError => extract_components_fallback paper_id paper_type paper_text fallback uuids
  | .badJson => extract_components_fallback paper_id paper_type paper_text fallback uuids
  | .json v =>
    let parsed := parseHierarchicalResponse paper_id v uuids
    if parsed.isEmpty then
      extract_components_fallback paper_id paper_type paper_text fallback uuids
    else parsed

/-! ## PaperCharacterizationService (`app/services/paper_characterization.py`) -/

/-- pydantic validation of an `Optional[int]` field. -/
def pyOptInt : Option JValue → Except PyError (Option Int)
  | none => .ok none
  | some .null => .ok none
  | some (.num n) => .ok (some n)
  | some _ => .error .validationError

/-- The `LocationInfo(...)` construction of `_validate_section` (lines
88–98): `section_data.get('start_location', {}).get('page')` raises
`AttributeError` when the present value is not a dict; field values must
be integers or null. -/
def pyLocation : JValue → Except PyError LocationInfo
  | .obj lf => do
    let page ← pyOptInt (jlookup lf "page")
    let paragraph ← pyOptInt (jlookup lf "paragraph")
    let position ← pyOptInt (jlookup lf "position")
    return { page := page, paragraph := paragraph, position := position }
  | _ => .error .attributeError

/-- `_validate_paper_type` (lines 70–76): `PaperType(s.lower())` for a
string, falling back to `UNKNOWN` on `ValueError`; a non-string raises
`AttributeError` on `.lower()`, also caught, yielding `UNKNOWN`.  (Note
the contrast with `_validate_component_type`, which uppercases.) -/
def validatePaperType : JValue → PaperType
  | .str s => (PaperType.ofValue (pyLower s)).getD .UNKNOWN
  | _ => .UNKNOWN

/-- `_validate_section` (lines 78–110): `None` when `name` or `title` is
missing/falsy, or when building the locations or the `Section` raises. -/
def validateSection (sf : List (String × JValue)) : Option Section :=
  if ¬ jtruthy (jlookupD sf "name" .null) ∨ ¬ jtruthy (jlookupD sf "title" .null) then
    none
  else
    let built : Except PyError Section := do
      let start_location ← pyLocation (jlookupD sf "start_location" (.obj []))
      let end_location ← pyLocation (jlookupD sf "end_location" (.obj []))
      let name ← pyStr (jlookupD sf "name" .null)
      let title ← pyStr (jlookupD sf "title" .null)
      let summary ← pyStr (jlookupD sf "summary" (.str ""))
      let text ← pyOptStr (jlookup sf "text")
      return { name := name, title := title, start_location := start_location,
               end_location := end_location, summary := summary, text := text }
    match built with
    | .ok s => some s
    | .error _ => none

/-- The section-processing loop of `characterize_paper` (lines 177–184):
non-dict entries are skipped, `section_data['name'] = section_name` is a
dict assignment, and validated sections are keyed by their validated
name. -/
def processSections (m : List (String × JValue)) : List (String × Section) :=
  m.foldl (fun acc p =>
    match p.2 with
    | .obj sf =>
      match validateSection (jset sf "name" (.str p.1)) with
      | some s => jset acc s.name s
      | none => acc
    | _ => acc) []

/-- Outcome of the parse ladder of `characterize_paper` on the model
response string (lines 125–156): direct `json.loads`, then the fenced
markdown block regex, then failure with the raw text. -/
inductive CharResponse where
  /-- `process_text` returned `None`: `json.loads(None)` raises
  `TypeError`, caught by the outer `except` (line 193). -/
  | noneResp : CharResponse
  /-- direct `json.loads` succeeded (line 127). -/
  | direct (v : JValue) : CharResponse
  /-- direct parse failed; a fenced block was found and parsed (line 140). -/
  | fenced (v : JValue) (raw : String) : CharResponse
  /-- a fenced block was found but failed to parse (line 142). -/
  | fencedBad (raw : String) : CharResponse
  /-- direct parse failed and no fenced block was found (line 149): plain
  non-JSON prose. -/
  | prose (raw : String) : CharResponse

/-- The dict returned by `characterize_paper`, one constructor per
`return` site (heterogeneous Python dicts). -/
inductive CharOutcome where
  /-- line 117: `{"error": "Empty text provided...", "success": False}`. -/
  | emptyText : CharOutcome
  /-- line 131: `{**result, "success": False}` — the parsed dict contained
  an `"error"` key and is spread into the result. -/
  | processorError (fields : List (String × JValue)) : CharOutcome
  /-- lines 144–148: fenced block found but unparseable; carries
  `raw_response`. -/
  | parseFencedFailed (raw : String) : CharOutcome
  /-- lines 152–156: neither direct nor fenced parse succeeded; carries
  `raw_response`. -/
  | notJson (raw : String) : CharOutcome
  /-- lines 161–164: parsed JSON was not a dict. -/
  | notDict : CharOutcome
  /-- lines 186–191: the success dict with validated paper type and
  sections (`confidence` kept uninterpreted). -/
  | success (paper_type : PaperType) (sections : List (String × Section))
      (confidence : JValue) : CharOutcome
  /-- lines 195–200: the outer `except` (e.g. `TypeError` from
  `json.loads(None)`): error dict with `paper_type = UNKNOWN` and empty
  `sections`. -/
  | unexpectedError : CharOutcome

/-- Whether the returned dict has a `paper_type` key. -/
def CharOutcome.hasPaperType : CharOutcome → Bool
  | .success _ _ _ => true
  | .unexpectedError => true
  | .processorError fields => jhasKey fields "paper_type"
  | _ => false

/-- Whether the returned dict has a `sections` key. -/
def CharOutcome.hasSections : CharOutcome → Bool
  | .success _ _ _ => true
  | .unexpectedError => true
  | .processorError fields => jhasKey fields "sections"
  | _ => false

/-- The `raw_response` value of the returned dict, if any. -/
def CharOutcome.rawResponse : CharOutcome → Option String
  | .parseFencedFailed raw => some raw
  | .notJson raw => some raw
  | _ => none

/-- The `success` flag of the returned dict. -/
def CharOutcome.successFlag : CharOutcome → Bool
  | .success _ _ _ => true
  | _ => false

/-- The `error` message of the returned dict, when it is a string of the
source (the `processorError` spread can hold an arbitrary JSON value). -/
def CharOutcome.errorMsg : CharOutcome → Option JValue
  | .emptyText => some (.str "Empty text provided...")
  | .processorError fields => jlookup fields "error"
  | .parseFencedFailed _ => some (.str "Failed to parse extracted JSON content")
  | .notJson _ =>
    some (.str "Failed to parse paper characterization response (Not valid JSON)")
  | .notDict => some (.str "Parsed AI response was not a valid dictionary structure.")
  | .unexpectedError => some (.str "Paper characterization failed: TypeError")
  | .success _ _ _ => none

/-- The shared tail of `characterize_paper` after a successful parse
(lines 159–191): dict check, paper-type validation, section
validation. -/
def finishParsed (v : JValue) : CharOutcome :=
  match v with
  | .obj fields =>
    let pt := validatePaperType (jlookupD fields "paper_type" (.str "unknown"))
    let raw_sections :=
      match jlookup fields "sections" with
      | some (.obj m) => m
      | _ => []
    .success pt (processSections raw_sections) (jlookupD fields "confidence" (.num 0))
  | _ => .notDict

/-- `characterize_paper` (lines 112–200). -/
def characterize_paper (text : String) (resp : CharResponse) : CharOutcome :=
  if text = "" ∨ (pyStrip text).length = 0 then .emptyText
  else
    match resp with
    | .noneResp => .unexpectedError
    | .direct v =>
      match v with
      | .obj fields =>
        if jhasKey fields "error" then .processorError fields
        else finishParsed (.obj fields)
      | _ => finishParsed v
    | .fenced v _ => finishParsed v
    | .fencedBad raw => .parseFencedFailed raw
    | .prose raw => .notJson raw

/-! ## VisualizationGenerator (`app/services/visualization_generator.py`) -/

/-- The dict returned by `generate_mermaid_diagram`: `is_minimal` and
`error` keys are present only on some return paths. -/
structure MermaidResult where
  diagram_type : String
  diagram_data : String
  component_mapping : List (String × String)
  is_minimal : Option Bool
  error : Option String

/-- The minimal diagram emitted for zero components or the single
`minimal_component` (lines 136–140). -/
def mermaidMinimalDiagram (minimal_name : String) : String :=
  "flowchart TD\n    A[" ++ minimal_name ++
  "] -.-> B(Extraction Unsuccessful or Minimal)\n    classDef minimal fill:#f9f,stroke:#333,stroke-width:2px;\n    class A,B minimal;\n"

/-- Models `str(e)` of the `AttributeError` raised by evaluating
`ComponentType.DATA_COLLECTION` (line 150): CPython's enum raises
`AttributeError` naming the missing member; the exact text varies across
Python versions and nothing below depends on it. -/
def attributeErrorMessage : String := "DATA_COLLECTION"

/-- The error diagram built by the `except` of `generate_mermaid_diagram`
(lines 237–239). -/
def mermaidErrorDiagram (msg : String) : String :=
  "flowchart TD\n    A[Error Generating Diagram] --> B(" ++
  pyRemoveChar msg '\"' ++ ")\n"

/-- `generate_mermaid_diagram` (lines 116–245).  The zero/minimal branch
(line 133) returns the placeholder diagram.  On any other input the
`type_classes` dict literal (lines 149–158) evaluates
`ComponentType.DATA_COLLECTION`, which raises `AttributeError`
(`app/core/models.py` defines no such member); the `except` on line 234
catches it and returns the error diagram with an empty
`component_mapping`, so the node/edge generation of lines 160–232 is
unreachable. -/
def generate_mermaid_diagram (components : List Component)
    (_relationships : List Relationship) : MermaidResult :=
  match components with
  | [] =>
    { diagram_type := "mermaid",
      diagram_data := mermaidMinimalDiagram "Paper Processing",
      component_mapping := [("A", "minimal_component")],
      is_minimal := some true, error := none }
  | [c] =>
    if c.id = "minimal_component" then
      { diagram_type := "mermaid",
        diagram_data := mermaidMinimalDiagram c.name,
        component_mapping := [("A", c.id)],
        is_minimal := some true, error := none }
    else
      { diagram_type := "mermaid",
        diagram_data := mermaidErrorDiagram attributeErrorMessage,
        component_mapping := [], is_minimal := none,
        error := some attributeErrorMessage }
  | _ =>
    { diagram_type := "mermaid",
      diagram_data := mermaidErrorDiagram attributeErrorMessage,
      component_mapping := [], is_minimal := none,
      error := some attributeErrorMessage }

/-! ## Specification-side definitions for the relationship analysis

These definitions follow the wording of the (amended) claim about
`analyze_relationships`, as opposed to the dict-fold implementation
above; the correspondence is proved below. -/

/-- The multiplicity-annotated list of first occurrences: keys in order
of first appearance, each with its total number of occurrences. -/
def specCounts : List String → List (String × Nat)
  | [] => []
  | x :: xs => (x, 1 + xs.count x) :: specCounts (xs.filter (fun y => y ≠ x))
termination_by l => l.length
decreasing_by
  have := List.length_filter_le (fun y => decide (y ≠ x)) xs
  simp only [List.length_cons]
  omega

/-- The endpoint list of a relationship list: for each relationship in
order, its source id then its target id. -/
def endpoints (relationships : List Relationship) : List String :=
  relationships.foldr (fun r acc => r.source_id :: r.target_id :: acc) []

/-- `analyze_relationships` as the amended claim words it: relationship
counts grouped by type; a degree (in+out edges) for every component id
occurring in a relationship, in order of first endpoint appearance; the
top three of these by descending degree — ties broken by that
first-appearance order, not by component list order — each resolved
against the component list (ids without a matching component are
skipped). -/
def analyzeSpec (components : List Component)
    (relationships : List Relationship) : RelationshipAnalysis :=
  let degrees := specCounts (endpoints relationships)
  let central := ((sortByCountDesc degrees).take 3).filterMap (fun p =>
    (components.find? (fun c => c.id = p.1)).map (fun c =>
      { id := c.id, name := c.name, type := c.type.value, connections := p.2 }))
  { relationship_types := specCounts (relationships.map (·.type)),
    central_components := central,
    total_relationships := relationships.length }

/-- The key list of a counter dict. -/
def keysOf (m : List (String × Nat)) : List String := m.map Prod.fst

/-- The result of folding `bump` over `l` starting from `m`, in closed
form: existing keys keep their position and gain their multiplicity in
`l`; new keys are appended in order of first appearance with their
multiplicity. -/
def addAll (m : List (String × Nat)) (l : List String) : List (String × Nat) :=
  m.map (fun p => (p.1, p.2 + l.count p.1)) ++
    specCounts (l.filter (fun x => decide (x ∉ keysOf m)))

/-! ## Predicates used to state the claims -/

/-- The primary hierarchical extraction "fails or yields nothing": the
model response was empty, an error string, unparseable, or parsed to
zero components. -/
def primaryFailed (paper_id : String) (p : PrimaryResp) (uuids : Nat → String) : Prop :=
  match p with
  | .empty => True
  | .procError => True
  | .badJson => True
  | .json v => parseHierarchicalResponse paper_id v uuids = []

/-- The simplified fallback extraction "fails or yields nothing": the
processor errored, the recovered value had no usable shape, or the
recovered list contains no dict items. -/
def fallbackNothing : FallbackResp → Prop
  | .errorDict => True
  | .strOther => True
  | .objOther => True
  | .otherVal => True
  | .arr items | .strList items | .strObjComponents items | .objComponents items =>
    items.all (fun it => match it with | .obj _ => false | _ => true) = true

/-! ## Concrete fixtures for witnesses and counterexamples -/

/-- A deterministic stand-in for the stream of `uuid.uuid4()` draws of one
run. -/
def uuidsA : Nat → String := fun n => "uuid-" ++ toString n

/-- Fixture: a `Dataset` component. -/
def compD : Component :=
  { id := "d", paper_id := "p", type := .DATASET, name := "D", description := "dataset" }

/-- Fixture: a `Model` component. -/
def compM : Component :=
  { id := "m", paper_id := "p", type := .MODEL, name := "M", description := "model" }

/-- Fixture: an `Evaluation` component. -/
def compE : Component :=
  { id := "e", paper_id := "p", type := .EVALUATION, name := "E", description := "evaluation" }

/-- Fixture: first component for the diagram counterexample. -/
def compX : Component :=
  { id := "c1", paper_id := "p", type := .DATASET, name := "MNIST", description := "" }

/-- Fixture: second component for the diagram counterexample. -/
def compY : Component :=
  { id := "c2", paper_id := "p", type := .MODEL, name := "CNN", description := "" }

/-- Fixture: a single relationship from `compY` (`c2`) to `compX` (`c1`),
giving both components degree 1. -/
def relYX : Relationship :=
  { id := "r1", paper_id := "p", source_id := "c2", target_id := "c1",
    type := "uses", description := "" }

/-- Fixture: the synthetic minimal component of a degenerate run with
paper type `UNKNOWN` and uuid supply `uuidsA`. -/
def minimalUnknownComp : Component :=
  { id := uuidsA 0, paper_id := "p", type := .OTHER,
    name := "Paper Content (unknown)",
    description := "Automatic component extraction failed. Manual review recommended.",
    details := [("extraction_note", .str "Created as fallback when extraction failed"),
                ("paper_type", .str "unknown")],
    source_section := some "full_paper", is_novel := false }

/-! # Theorems -/

/-! ## C4 — `_validate_component_type` -/

/-- C4: the claim says the component-type validator is case-insensitive
and returns an already-valid type value unchanged.  In fact
`_validate_component_type` uppercases its string argument before the
`ComponentType(...)` lookup, while every enum member's value is
lowercase, so *every* string spelling — including the exact member value
`"dataset"` and the prompt's spelling `"DATASET"` — is coerced to
`OTHER`, contradicting the function's own "case-insensitive matching"
comment (and the lowercasing sibling `_validate_paper_type`).  Even an
actual `ComponentType` member is coerced to `OTHER`: members subclass
`str`, so they take the string branch and their lowercase value is
uppercased before the failing lookup (the `isinstance(...,
ComponentType)` branch is dead code).  (`"other"` maps to `OTHER` merely
via the fallback.) -/
theorem validateComponentType_uppercases_against_lowercase_enum :
    validateComponentType (.str "dataset") = ComponentType.OTHER ∧
    validateComponentType (.str "DATASET") = ComponentType.OTHER ∧
    validateComponentType (.str "Dataset") = ComponentType.OTHER ∧
    validateComponentType (.str "model") = ComponentType.OTHER ∧
    validateComponentType (.enum .DATASET) = ComponentType.OTHER := by
  refine ⟨?_, ?_, ?_, ?_, ?_⟩ <;> decide

/-! ## C5 — `_generate_fallback_relationships` raises -/

/-- C5: the claim says the deterministic fallback, run twice on any list
with at least two components, returns byte-identical edge lists.  In
fact for any such list the function raises `AttributeError` while
building its `type_order` dict (`ComponentType.DATA_COLLECTION` is not a
member of the enum in `app/core/models.py`), so no edge list is returned
at all; only the short-circuit for fewer than two components returns
(the empty list). -/
theorem generateFallbackRelationships_raises :
    generateFallbackRelationships "p" [compD, compM] = .error .attributeError ∧
    generateFallbackRelationships "p" [compD, compM, compE] = .error .attributeError ∧
    generateFallbackRelationships "p" [compD] = .ok [] ∧
    generateFallbackRelationships "p" [] = .ok [] := by
  exact ⟨rfl, rfl, rfl, rfl⟩

/-! ## C3 — `generate_mermaid_diagram` -/

/-- C3: the claim says templated diagram generation on `N ≥ 1` components
emits exactly `N` node declarations (ids `A`, `B`, …) with every edge
endpoint drawn from that node-id set.  In fact any input that reaches
the main branch hits the `AttributeError` from
`ComponentType.DATA_COLLECTION` in the `type_classes` literal, and the
`except` returns the fixed error diagram with an *empty*
`component_mapping`: for the two components named `MNIST` and `CNN`
below, no node declaration for either is emitted (their names do not
occur in the diagram source at all), instead of the claimed two
declarations `A[...]`, `B[...]`. -/
theorem generate_mermaid_diagram_error_branch :
    generate_mermaid_diagram [compX, compY] [] =
      { diagram_type := "mermaid",
        diagram_data := mermaidErrorDiagram attributeErrorMessage,
        component_mapping := [], is_minimal := none,
        error := some attributeErrorMessage } ∧
    strContains (generate_mermaid_diagram [compX, compY] []).diagram_data "MNIST"
      = false ∧
    strContains (generate_mermaid_diagram [compX, compY] []).diagram_data "CNN"
      = false := by
  refine ⟨rfl, ?_, ?_⟩ <;> decide

/-! ## C8 — `characterize_paper` on plain prose -/

/-- C8: when the model response is plain non-JSON prose (direct parse and
fenced-block extraction both fail), `characterize_paper` returns the
error dict that carries the raw response text, has no `paper_type` and
no `sections` key, and reports failure. -/
theorem characterize_paper_prose (text raw : String)
    (h : ¬ (text = "" ∨ (pyStrip text).length = 0)) :
    (characterize_paper text (.prose raw)).rawResponse = some raw ∧
    (characterize_paper text (.prose raw)).hasPaperType = false ∧
    (characterize_paper text (.prose raw)).hasSections = false ∧
    (characterize_paper text (.prose raw)).successFlag = false ∧
    (characterize_paper text (.prose raw)).errorMsg =
      some (.str "Failed to parse paper characterization response (Not valid JSON)") := by
  rw [characterize_paper]
  rw [if_neg h]
  exact ⟨rfl, rfl, rfl, rfl, rfl⟩

/-- Witness for C8 at `text = "some paper"`, `raw = "I cannot produce JSON."`. -/
theorem characterize_paper_prose_witness :
    ¬ (("some paper" : String) = "" ∨ (pyStrip "some paper").length = 0) ∧
    ((characterize_paper "some paper" (.prose "I cannot produce JSON.")).rawResponse
        = some "I cannot produce JSON." ∧
      (characterize_paper "some paper" (.prose "I cannot produce JSON.")).hasPaperType
        = false) := by
  have h : ¬ (("some paper" : String) = "" ∨ (pyStrip "some paper").length = 0) := by
    decide
  have hmain := characterize_paper_prose "some paper" "I cannot produce JSON." h
  exact ⟨h, hmain.1, hmain.2.1⟩

/-! ## Helper lemmas on the relationship extraction -/

theorem mem_assignRelIds {uuids : Nat → String} {r : Relationship} :
    ∀ {k : Nat} {l : List Relationship}, r ∈ assignRelIds uuids k l →
    ∃ r' ∈ l, r.paper_id = r'.paper_id ∧ r.source_id = r'.source_id ∧
      r.target_id = r'.target_id ∧ r.type = r'.type ∧
      r.description = r'.description := by
  intro k l
  induction l generalizing k with
  | nil => intro h; simp [assignRelIds] at h
  | cons x xs ih =>
    intro h
    rw [assignRelIds] at h
    rcases List.mem_cons.mp h with h1 | h2
    · exact ⟨x, List.mem_cons_self x xs, by simp [h1]⟩
    · obtain ⟨r', hr', hp⟩ := ih h2
      exact ⟨r', List.mem_cons_of_mem x hr', hp⟩

theorem keptEdge_sound {paper_id : String} {ids : List String} {it : RelItem}
    {r : Relationship} (h : keptEdge paper_id ids it = some r) :
    r.source_id ≠ r.target_id ∧ r.source_id ∈ ids ∧ r.target_id ∈ ids ∧
    ∃ src tgt rt d, it = RelItem.edge src tgt rt d ∧
      r.type = pyUpper (rt.getD "RELATED_TO") := by
  cases it with
  | notDict => simp [keptEdge] at h
  | edge src tgt rt d =>
    cases src with
    | none => simp [keptEdge] at h
    | some s =>
      cases tgt with
      | none => simp [keptEdge] at h
      | some t =>
        simp only [keptEdge] at h
        split at h
        · exact absurd h (by simp)
        · split at h
          · exact absurd h (by simp)
          · split at h
            · exact absurd h (by simp)
            · rename_i hempty hids hst
              cases h
              push_neg at hids
              exact ⟨hst, hids.1, hids.2, some s, some t, rt, d, rfl, rfl⟩

/-! ## C6 — id validity of extracted relationships -/

/-- C6: every `Relationship` returned by `extract_relationships` has a
source id different from its target id, and both ids are members of the
id set of the component list passed in; model-proposed edges violating
either condition are discarded by the validation loop, never returned. -/
theorem extract_relationships_ids_valid (paper_id : String) (pt : PaperType)
    (components : List Component) (text : String) (resp : RelResponse)
    (uuids : Nat → String) (r : Relationship)
    (hr : r ∈ extract_relationships paper_id pt components text resp uuids) :
    r.source_id ≠ r.target_id ∧ r.source_id ∈ components.map (·.id) ∧
    r.target_id ∈ components.map (·.id) := by
  unfold extract_relationships at hr
  split at hr
  · exact absurd hr (List.not_mem_nil r)
  · cases resp with
    | failure => exact absurd hr (List.not_mem_nil r)
    | objRelNotList => exact absurd hr (List.not_mem_nil r)
    | otherShape => exact absurd hr (List.not_mem_nil r)
    | badJson => exact absurd hr (List.not_mem_nil r)
    | objRelList items =>
      obtain ⟨r', hr', hpid, hs, ht, hty, hd⟩ := mem_assignRelIds hr
      obtain ⟨it, -, hkept⟩ := List.mem_filterMap.mp hr'
      obtain ⟨hne, hsrc, htgt, -⟩ := keptEdge_sound hkept
      rw [hs, ht]
      exact ⟨hne, hsrc, htgt⟩
    | list items =>
      obtain ⟨r', hr', hpid, hs, ht, hty, hd⟩ := mem_assignRelIds hr
      obtain ⟨it, -, hkept⟩ := List.mem_filterMap.mp hr'
      obtain ⟨hne, hsrc, htgt, -⟩ := keptEdge_sound hkept
      rw [hs, ht]
      exact ⟨hne, hsrc, htgt⟩

/-- Witness for C6: a concrete model response with one valid edge
`d → m` yields exactly that relationship, and the theorem applies to
it. -/
theorem extract_relationships_ids_valid_witness :
    ({ id := "uuid-0", paper_id := "p", source_id := "d", target_id := "m",
       type := "USES", description := "" } : Relationship) ∈
      extract_relationships "p" .NEW_ARCHITECTURE [compD, compM] ""
        (.list [.edge (some "d") (some "m") (some "uses") none]) uuidsA ∧
    ("d" : String) ≠ "m" ∧ ("d" : String) ∈ [compD, compM].map (·.id) ∧
    ("m" : String) ∈ [compD, compM].map (·.id) := by
  have hmem : ({ id := "uuid-0", paper_id := "p", source_id := "d",
                 target_id := "m", type := "USES",
                 description := "" } : Relationship) ∈
      extract_relationships "p" .NEW_ARCHITECTURE [compD, compM] ""
        (.list [.edge (some "d") (some "m") (some "uses") none]) uuidsA := by
    decide
  have h := extract_relationships_ids_valid "p" .NEW_ARCHITECTURE
    [compD, compM] "" (.list [.edge (some "d") (some "m") (some "uses") none])
    uuidsA _ hmem
  exact ⟨hmem, h⟩

/-! ## C1 — the relationship fallback is never applied -/

/-- C1 counterexample: the claim says that for `[Dataset D, Model M,
Evaluation E]` and a model response of `[]`, `extract_relationships`
applies the deterministic fallback and the result contains the edges
`D→M` (flow), `M→E` (flow) and `D→M` (uses).  In fact the fallback calls
of `extract_relationships` are commented out (lines 68, 180–182): the
result is the empty list, so it contains no edge at all. -/
theorem extract_relationships_fallback_counterexample :
    extract_relationships "p" .NEW_ARCHITECTURE [compD, compM, compE] ""
      (.list []) uuidsA = [] ∧
    ¬ ∃ r ∈ extract_relationships "p" .NEW_ARCHITECTURE [compD, compM, compE] ""
        (.list []) uuidsA, r.type = "flow" ∧ r.source_id = "d" ∧
        r.target_id = "m" := by
  refine ⟨rfl, ?_⟩
  rintro ⟨r, hr, -⟩
  rw [show extract_relationships "p" .NEW_ARCHITECTURE [compD, compM, compE] ""
      (.list []) uuidsA = [] from rfl] at hr
  exact absurd hr (List.not_mem_nil r)

/-- C1 amended: when the model call fails outright (empty/error response,
unparseable or wrong-shaped JSON) or yields zero valid edges after
validation, `extract_relationships` returns the empty list — the
deterministic fallback `_generate_fallback_relationships` is *not*
invoked (its call sites are commented out), and invoking it directly on
the same components would raise `AttributeError`
(`ComponentType.DATA_COLLECTION` is not an enum member). -/
theorem extract_relationships_failure_paths (paper_id : String)
    (pt : PaperType) (components : List Component) (text : String)
    (items : List RelItem) (uuids : Nat → String)
    (h2 : 2 ≤ components.length)
    (hall : ∀ it ∈ items, keptEdge paper_id (components.map (·.id)) it = none) :
    extract_relationships paper_id pt components text .failure uuids = [] ∧
    extract_relationships paper_id pt components text .badJson uuids = [] ∧
    extract_relationships paper_id pt components text .objRelNotList uuids = [] ∧
    extract_relationships paper_id pt components text .otherShape uuids = [] ∧
    extract_relationships paper_id pt components text (.list items) uuids = [] ∧
    extract_relationships paper_id pt components text (.objRelList items) uuids
      = [] ∧
    generateFallbackRelationships paper_id components = .error .attributeError := by
  have hlt : ¬ components.length < 2 := by omega
  have hnil : items.filterMap (keptEdge paper_id (components.map (·.id))) = [] :=
    List.filterMap_eq_nil_iff.mpr hall
  refine ⟨?_, ?_, ?_, ?_, ?_, ?_, ?_⟩
  · simp [extract_relationships, hlt]
  · simp [extract_relationships, hlt]
  · simp [extract_relationships, hlt]
  · simp [extract_relationships, hlt]
  · simp [extract_relationships, hlt, hnil, assignRelIds]
  · simp [extract_relationships, hlt, hnil, assignRelIds]
  · simp [generateFallbackRelationships, hlt]

/-- Witness for C1-amended at the scenario input: three components, a
response list whose only item is an invalid (self-loop) edge, hence zero
valid edges. -/
theorem extract_relationships_failure_paths_witness :
    (2 ≤ ([compD, compM, compE] : List Component).length ∧
      ∀ it ∈ ([.edge (some "d") (some "d") (some "uses") none] : List RelItem),
        keptEdge "p" ([compD, compM, compE].map (·.id)) it = none) ∧
    extract_relationships "p" .NEW_ARCHITECTURE [compD, compM, compE] ""
      (.list [.edge (some "d") (some "d") (some "uses") none]) uuidsA = [] ∧
    generateFallbackRelationships "p" [compD, compM, compE]
      = .error .attributeError := by
  have h2 : 2 ≤ ([compD, compM, compE] : List Component).length := by decide
  have hall : ∀ it ∈ ([.edge (some "d") (some "d") (some "uses") none] :
      List RelItem), keptEdge "p" ([compD, compM, compE].map (·.id)) it = none := by
    decide
  have h := extract_relationships_failure_paths "p" .NEW_ARCHITECTURE
    [compD, compM, compE] "" [.edge (some "d") (some "d") (some "uses") none]
    uuidsA h2 hall
  exact ⟨⟨h2, hall⟩, h.2.2.2.2.1, h.2.2.2.2.2.2⟩

/-! ## C10 — per-item handling in `extract_relationships` -/

/-- C10: an edge item lacking the `relationship_type` key gets the
default type `RELATED_TO` and is kept (subject to id validation); an
item whose `relationship_type` is present but empty is dropped; an item
with a missing or empty source or target id is dropped; and every stored
relationship's `type` is the uppercased form of the type string used. -/
theorem extract_relationships_item_handling (paper_id : String)
    (pt : PaperType) (components : List Component) (text : String)
    (uuids : Nat → String) (sid tid : String) (descr : Option String)
    (h2 : 2 ≤ components.length) (hs : sid ∈ components.map (·.id))
    (ht : tid ∈ components.map (·.id)) (hne : sid ≠ tid) (hsne : sid ≠ "")
    (htne : tid ≠ "") :
    (extract_relationships paper_id pt components text
        (.list [.edge (some sid) (some tid) none descr]) uuids =
      [{ id := uuids 0, paper_id := paper_id, source_id := sid,
         target_id := tid, type := "RELATED_TO",
         description := descr.getD "" }]) ∧
    (∀ t : String, t ≠ "" →
      extract_relationships paper_id pt components text
        (.list [.edge (some sid) (some tid) (some t) descr]) uuids =
      [{ id := uuids 0, paper_id := paper_id, source_id := sid,
         target_id := tid, type := pyUpper t, description := descr.getD "" }]) ∧
    (extract_relationships paper_id pt components text
        (.list [.edge (some sid) (some tid) (some "") descr]) uuids = []) ∧
    (extract_relationships paper_id pt components text
        (.list [.edge none (some tid) (some "USES") descr]) uuids = []) ∧
    (extract_relationships paper_id pt components text
        (.list [.edge (some "") (some tid) (some "USES") descr]) uuids = []) ∧
    (extract_relationships paper_id pt components text
        (.list [.edge (some sid) none (some "USES") descr]) uuids = []) ∧
    (∀ (items : List RelItem) (r : Relationship),
      r ∈ extract_relationships paper_id pt components text (.list items) uuids →
      ∃ src tgt rt d, RelItem.edge src tgt rt d ∈ items ∧
        r.type = pyUpper (rt.getD "RELATED_TO")) := by
  have hlt : ¬ components.length < 2 := by omega
  refine ⟨?_, ?_, ?_, ?_, ?_, ?_, ?_⟩
  · have h1 : pyUpper "RELATED_TO" = "RELATED_TO" := by decide
    simp [extract_relationships, hlt, keptEdge, hsne, htne, hs, ht, hne,
      assignRelIds, h1]
  · intro t hqne
    simp [extract_relationships, hlt, keptEdge, hsne, htne, hqne, hs, ht, hne,
      assignRelIds]
  · simp [extract_relationships, hlt, keptEdge, assignRelIds]
  · simp [extract_relationships, hlt, keptEdge, assignRelIds]
  · simp [extract_relationships, hlt, keptEdge, assignRelIds]
  · simp [extract_relationships, hlt, keptEdge, assignRelIds]
  · intro items r hr
    unfold extract_relationships at hr
    rw [if_neg hlt] at hr
    obtain ⟨r', hr', hpid, hsrc, htgt, hty, hd⟩ := mem_assignRelIds hr
    obtain ⟨it, hit, hkept⟩ := List.mem_filterMap.mp hr'
    obtain ⟨-, -, -, src, tgt, rt, dd, hshape, hup⟩ := keptEdge_sound hkept
    subst hshape
    exact ⟨src, tgt, rt, dd, hit, by rw [hty, hup]⟩

/-- Witness for C10 at components `[compD, compM]`, `sid = "d"`,
`tid = "m"`, `t = "uses"`. -/
theorem extract_relationships_item_handling_witness :
    (2 ≤ ([compD, compM] : List Component).length ∧
      ("d" : String) ∈ [compD, compM].map (·.id) ∧
      ("m" : String) ∈ [compD, compM].map (·.id) ∧ ("d" : String) ≠ "m" ∧
      ("d" : String) ≠ "" ∧ ("m" : String) ≠ "") ∧
    extract_relationships "p" .NEW_ARCHITECTURE [compD, compM] ""
      (.list [.edge (some "d") (some "m") none none]) uuidsA =
      [{ id := "uuid-0", paper_id := "p", source_id := "d", target_id := "m",
         type := "RELATED_TO", description := "" }] ∧
    extract_relationships "p" .NEW_ARCHITECTURE [compD, compM] ""
      (.list [.edge (some "d") (some "m") (some "uses") none]) uuidsA =
      [{ id := "uuid-0", paper_id := "p", source_id := "d", target_id := "m",
         type := pyUpper "uses", description := "" }] ∧
    extract_relationships "p" .NEW_ARCHITECTURE [compD, compM] ""
      (.list [.edge (some "d") (some "m") (some "") none]) uuidsA = [] := by
  have h2 : 2 ≤ ([compD, compM] : List Component).length := by decide
  have hs : ("d" : String) ∈ [compD, compM].map (·.id) := by decide
  have ht : ("m" : String) ∈ [compD, compM].map (·.id) := by decide
  have hne : ("d" : String) ≠ "m" := by decide
  have hsne : ("d" : String) ≠ "" := by decide
  have htne : ("m" : String) ≠ "" := by decide
  have h := extract_relationships_item_handling "p" .NEW_ARCHITECTURE
    [compD, compM] "" uuidsA "d" "m" none h2 hs ht hne hsne htne
  exact ⟨⟨h2, hs, ht, hne, hsne, htne⟩, h.1, h.2.1 "uses" (by decide), h.2.2.1⟩

/-! ## Helper lemmas on the component extraction -/

theorem length_assignCompIds (uuids : Nat → String) :
    ∀ (k : Nat) (l : List Component), (assignCompIds uuids k l).length = l.length := by
  intro k l
  induction l generalizing k with
  | nil => rfl
  | cons x xs ih => simp [assignCompIds, ih]

theorem extract_components_fallback_length (paper_id : String)
    (pt : PaperType) (text : String) (resp : FallbackResp)
    (uuids : Nat → String) :
    1 ≤ (extract_components_fallback paper_id pt text resp uuids).length := by
  have hmin : ∀ opt, 1 ≤ (createMinimalComponents paper_id opt uuids).length := by
    intro opt
    simp [createMinimalComponents]
  cases resp with
  | errorDict => exact hmin _
  | strOther => exact hmin _
  | objOther => exact hmin _
  | otherVal => exact hmin _
  | arr items =>
    rw [extract_components_fallback]
    split
    · exact hmin _
    · rename_i hne
      rw [length_assignCompIds]
      have := List.isEmpty_iff_length_eq_zero.not.mp hne
      omega
  | strList items =>
    rw [extract_components_fallback]
    split
    · exact hmin _
    · rename_i hne
      rw [length_assignCompIds]
      have := List.isEmpty_iff_length_eq_zero.not.mp hne
      omega
  | strObjComponents items =>
    rw [extract_components_fallback]
    split
    · exact hmin _
    · rename_i hne
      rw [length_assignCompIds]
      have := List.isEmpty_iff_length_eq_zero.not.mp hne
      omega
  | objComponents items =>
    rw [extract_components_fallback]
    split
    · exact hmin _
    · rename_i hne
      rw [length_assignCompIds]
      have := List.isEmpty_iff_length_eq_zero.not.mp hne
      omega

theorem extract_components_fallback_nothing (paper_id : String)
    (pt : PaperType) (text : String) (resp : FallbackResp)
    (uuids : Nat → String) (hf : fallbackNothing resp) :
    extract_components_fallback paper_id pt text resp uuids =
      createMinimalComponents paper_id (some pt) uuids := by
  have hlist : ∀ items : List JValue,
      (items.all (fun it => match it with | .obj _ => false | _ => true) = true) →
      (items.filterMap (fun it =>
        match it with
        | JValue.obj fields => some (createComponent paper_id "full_paper" fields)
        | _ => none)) = [] := by
    intro items hall
    apply List.filterMap_eq_nil_iff.mpr
    intro a ha
    have := List.all_eq_true.mp hall a ha
    cases a <;> simp_all
  cases resp with
  | errorDict => rfl
  | strOther => rfl
  | objOther => rfl
  | otherVal => rfl
  | arr items =>
    rw [extract_components_fallback]
    rw [hlist items hf]
    rfl
  | strList items =>
    rw [extract_components_fallback]
    rw [hlist items hf]
    rfl
  | strObjComponents items =>
    rw [extract_components_fallback]
    rw [hlist items hf]
    rfl
  | objComponents items =>
    rw [extract_components_fallback]
    rw [hlist items hf]
    rfl

/-! ## C2 — component extraction never returns an empty list -/

/-- C2: for every input, the component-extraction operation returns at
least one component; and when the primary hierarchical extraction and
the simplified fallback extraction both fail or yield nothing, the
result is exactly the single synthetic `OTHER` component whose details
record that automatic extraction failed. -/
theorem extract_components_never_empty (paper_id : String) (pt : PaperType)
    (text : String) (primary : PrimaryResp) (fallback : FallbackResp)
    (uuids : Nat → String) :
    1 ≤ (extract_components_from_text paper_id pt text primary fallback uuids).length ∧
    (primaryFailed paper_id primary uuids → fallbackNothing fallback →
      extract_components_from_text paper_id pt text primary fallback uuids =
        createMinimalComponents paper_id (some pt) uuids ∧
      (createMinimalComponents paper_id (some pt) uuids).length = 1 ∧
      ∀ c ∈ createMinimalComponents paper_id (some pt) uuids,
        c.type = ComponentType.OTHER ∧
        jlookup c.details "extraction_note" =
          some (.str "Created as fallback when extraction failed")) := by
  constructor
  · cases primary with
    | empty => exact extract_components_fallback_length paper_id pt text fallback uuids
    | procError => exact extract_components_fallback_length paper_id pt text fallback uuids
    | badJson => exact extract_components_fallback_length paper_id pt text fallback uuids
    | json v =>
      rw [extract_components_from_text]
      split
      · exact extract_components_fallback_length paper_id pt text fallback uuids
      · rename_i hne
        have := List.isEmpty_iff_length_eq_zero.not.mp hne
        omega
  · intro hp hf
    have hmin : ∀ c ∈ createMinimalComponents paper_id (some pt) uuids,
        c.type = ComponentType.OTHER ∧
        jlookup c.details "extraction_note" =
          some (.str "Created as fallback when extraction failed") := by
      intro c hc
      rw [createMinimalComponents] at hc
      rw [List.mem_singleton] at hc
      subst hc
      exact ⟨rfl, rfl⟩
    refine ⟨?_, rfl, hmin⟩
    cases primary with
    | empty => exact extract_components_fallback_nothing paper_id pt text fallback uuids hf
    | procError => exact extract_components_fallback_nothing paper_id pt text fallback uuids hf
    | badJson => exact extract_components_fallback_nothing paper_id pt text fallback uuids hf
    | json v =>
      rw [extract_components_from_text]
      have hp' : parseHierarchicalResponse paper_id v uuids = [] := hp
      rw [hp']
      simp only [List.isEmpty_nil, if_true]
      exact extract_components_fallback_nothing paper_id pt text fallback uuids hf

/-- Witness for C2: primary response empty, fallback processor errored —
the run degenerates to the single synthetic component. -/
theorem extract_components_never_empty_witness :
    (primaryFailed "p" .empty uuidsA ∧ fallbackNothing .errorDict) ∧
    1 ≤ (extract_components_from_text "p" .UNKNOWN "text" .empty .errorDict
          uuidsA).length ∧
    extract_components_from_text "p" .UNKNOWN "text" .empty .errorDict uuidsA =
      createMinimalComponents "p" (some .UNKNOWN) uuidsA ∧
    (createMinimalComponents "p" (some .UNKNOWN) uuidsA).length = 1 := by
  have hp : primaryFailed "p" .empty uuidsA := trivial
  have hf : fallbackNothing .errorDict := trivial
  have h := extract_components_never_empty "p" .UNKNOWN "text" .empty .errorDict
    uuidsA
  have h2 := h.2 hp hf
  exact ⟨⟨hp, hf⟩, h.1, h2.1, h2.2.1⟩

/-! ## C7 — component types stay in the closed enumeration -/

/-- C7: every component produced by the component extraction has a type
that is a defined member of the closed `ComponentType` enumeration —
never unset, never an arbitrary string.  (In the embedding this is the
statement that extraction is total into `ComponentType`: every parse
path goes through `validateComponentType`, which coerces unparseable or
invalid raw type values to a member, ultimately `OTHER`.) -/
theorem extract_components_types_closed (paper_id : String) (pt : PaperType)
    (text : String) (primary : PrimaryResp) (fallback : FallbackResp)
    (uuids : Nat → String) (c : Component)
    (_hc : c ∈ extract_components_from_text paper_id pt text primary fallback uuids) :
    c.type ∈ ComponentType.all ∧
    ∀ v : TypeVal, validateComponentType v ∈ ComponentType.all := by
  have hall : ∀ t : ComponentType, t ∈ ComponentType.all := by
    intro t
    cases t <;> simp [ComponentType.all]
  exact ⟨hall c.type, fun v => hall _⟩

/-- Witness for C7: the synthetic component of the degenerate run is in
the output and its type is in the enumeration. -/
theorem extract_components_types_closed_witness :
    minimalUnknownComp ∈
      extract_components_from_text "p" .UNKNOWN "text" .empty .errorDict uuidsA ∧
    minimalUnknownComp.type ∈ ComponentType.all := by
  have hmem : minimalUnknownComp ∈
      extract_components_from_text "p" .UNKNOWN "text" .empty .errorDict uuidsA := by
    show minimalUnknownComp ∈ createMinimalComponents "p" (some .UNKNOWN) uuidsA
    rw [createMinimalComponents]
    exact List.mem_singleton.mpr rfl
  have h := extract_components_types_closed "p" .UNKNOWN "text" .empty .errorDict
    uuidsA _ hmem
  exact ⟨hmem, h.1⟩

/-! ## Helper lemmas on the relationship analysis -/

theorem keysOf_bump_mem {m : List (String × Nat)} {x : String}
    (h : x ∈ keysOf m) : keysOf (bump m x) = keysOf m := by
  induction m with
  | nil => simp [keysOf] at h
  | cons p rest ih =>
    obtain ⟨k, v⟩ := p
    by_cases hk : k = x
    · subst hk
      simp [bump, keysOf]
    · have hx : x ∈ keysOf rest := by
        simpa [keysOf, hk, Ne.symm hk] using h
      simp only [bump, if_neg hk, keysOf, List.map_cons] at *
      rw [ih hx]

theorem bump_not_mem {m : List (String × Nat)} {x : String}
    (h : x ∉ keysOf m) : bump m x = m ++ [(x, 1)] := by
  induction m with
  | nil => rfl
  | cons p rest ih =>
    obtain ⟨k, v⟩ := p
    have hk : k ≠ x := by
      intro hke
      apply h
      subst hke
      exact List.mem_cons_self _ _
    have hx : x ∉ keysOf rest := by
      intro hxe
      exact h (List.mem_cons_of_mem _ hxe)
    simp only [bump, if_neg hk, List.cons_append]
    rw [ih hx]

theorem map_add_count_not_mem {m : List (String × Nat)} {x : String}
    (h : x ∉ keysOf m) (l : List String) :
    m.map (fun p => (p.1, p.2 + ((x :: l).count p.1))) =
      m.map (fun p => (p.1, p.2 + l.count p.1)) := by
  apply List.map_congr_left
  intro p hp
  have hne : p.1 ≠ x := by
    intro he
    exact h (he ▸ List.mem_map_of_mem Prod.fst hp)
  rw [List.count_cons]
  simp [Ne.symm hne]

theorem map_add_count_bump {m : List (String × Nat)} {x : String}
    (hmem : x ∈ keysOf m) (hnd : (keysOf m).Nodup) (l : List String) :
    (bump m x).map (fun p => (p.1, p.2 + l.count p.1)) =
      m.map (fun p => (p.1, p.2 + ((x :: l).count p.1))) := by
  induction m with
  | nil => simp [keysOf] at hmem
  | cons p rest ih =>
    obtain ⟨k, v⟩ := p
    by_cases hk : k = x
    · subst hk
      have hrest : k ∉ keysOf rest := (List.nodup_cons.mp hnd).1
      simp only [bump, if_pos rfl, List.map_cons]
      rw [map_add_count_not_mem hrest l]
      simp [List.count_cons]
      omega
    · have hx : x ∈ keysOf rest := by
        simpa [keysOf, hk, Ne.symm hk] using hmem
      have hnd' : (keysOf rest).Nodup := (List.nodup_cons.mp hnd).2
      simp only [bump, if_neg hk, List.map_cons]
      rw [ih hx hnd']
      congr 1
      rw [List.count_cons]
      simp [hk, Ne.symm hk]

theorem nodup_keysOf_bump {m : List (String × Nat)} {x : String}
    (hnd : (keysOf m).Nodup) : (keysOf (bump m x)).Nodup := by
  by_cases hx : x ∈ keysOf m
  · rw [keysOf_bump_mem hx]
    exact hnd
  · rw [bump_not_mem hx]
    rw [keysOf, List.map_append]
    simp only [List.nodup_append]
    refine ⟨hnd, by simp, ?_⟩
    intro a ha
    simp only [keysOf] at hx
    simp
    intro he
    subst he
    exact hx ha

theorem foldl_bump_addAll :
    ∀ (l : List String) (m : List (String × Nat)), (keysOf m).Nodup →
    l.foldl bump m = addAll m l := by
  intro l
  induction l with
  | nil =>
    intro m _
    simp [addAll, specCounts]
  | cons x xs ih =>
    intro m hm
    rw [List.foldl_cons, ih (bump m x) (nodup_keysOf_bump hm)]
    by_cases hx : x ∈ keysOf m
    · rw [addAll, addAll]
      rw [map_add_count_bump hx hm xs, keysOf_bump_mem hx]
      rw [List.filter_cons_of_neg (by simp [hx])]
    · rw [bump_not_mem hx, addAll, addAll]
      rw [List.map_append]
      rw [map_add_count_not_mem hx xs]
      have hkeys : keysOf (m ++ [(x, 1)]) = keysOf m ++ [x] := by
        simp [keysOf]
      rw [hkeys]
      rw [List.filter_cons_of_pos (by simp [hx])]
      rw [specCounts]
      have hcount : (xs.filter (fun y => decide (y ∉ keysOf m))).count x
          = xs.count x := List.count_filter (by simp [hx])
      rw [hcount]
      have hfilter : xs.filter (fun y => decide (y ∉ keysOf m ++ [x])) =
          (xs.filter (fun y => decide (y ∉ keysOf m))).filter
            (fun y => decide (y ≠ x)) := by
        rw [List.filter_filter]
        apply List.filter_congr
        intro a _
        by_cases hax : a = x
        · subst hax
          simp
        · by_cases ham : a ∈ keysOf m <;> simp [hax, ham]
      rw [hfilter]
      rw [List.append_assoc]
      rfl

theorem addAll_nil (l : List String) : addAll [] l = specCounts l := by
  rw [addAll]
  simp only [List.map_nil, List.nil_append]
  congr 1
  have : ∀ y : String, (decide (y ∉ keysOf []) : Bool) = true := by
    intro y
    simp [keysOf]
  calc l.filter (fun y => decide (y ∉ keysOf []))
      = l.filter (fun _ => true) := List.filter_congr (fun a _ => this a)
    _ = l := List.filter_true l

theorem foldl_bump_types (relationships : List Relationship) :
    relationships.foldl (fun m r => bump m r.type) [] =
      specCounts (relationships.map (·.type)) := by
  have h := (List.foldl_map (fun r : Relationship => r.type) bump
    relationships []).symm
  rw [h, foldl_bump_addAll _ [] (by simp [keysOf]), addAll_nil]

theorem foldl_bump_endpoints (relationships : List Relationship) :
    relationships.foldl (fun m r => bump (bump m r.source_id) r.target_id) [] =
      specCounts (endpoints relationships) := by
  have key : ∀ (rels : List Relationship) (m : List (String × Nat)),
      rels.foldl (fun m r => bump (bump m r.source_id) r.target_id) m =
        (endpoints rels).foldl bump m := by
    intro rels
    induction rels with
    | nil => intro m; rfl
    | cons r rs ih =>
      intro m
      rw [List.foldl_cons]
      rw [ih]
      rfl
  rw [key, foldl_bump_addAll _ [] (by simp [keysOf]), addAll_nil]

theorem mem_insertByCountDesc {x b : String × Nat} :
    ∀ {l : List (String × Nat)}, b ∈ insertByCountDesc x l ↔ b = x ∨ b ∈ l := by
  intro l
  induction l with
  | nil => simp [insertByCountDesc]
  | cons y ys ih =>
    rw [insertByCountDesc]
    split
    · simp [List.mem_cons]
    · simp only [List.mem_cons, ih]
      tauto

theorem pairwise_insertByCountDesc {x : String × Nat} {l : List (String × Nat)}
    (h : l.Pairwise (fun a b => b.2 ≤ a.2)) :
    (insertByCountDesc x l).Pairwise (fun a b => b.2 ≤ a.2) := by
  induction l with
  | nil => simp [insertByCountDesc]
  | cons y ys ih =>
    rw [insertByCountDesc]
    rw [List.pairwise_cons] at h
    split
    · rename_i hle
      rw [List.pairwise_cons]
      constructor
      · intro b hb
        rcases List.mem_cons.mp hb with hb | hb
        · subst hb
          exact hle
        · exact le_trans (h.1 b hb) hle
      · exact List.pairwise_cons.mpr h
    · rename_i hgt
      push_neg at hgt
      rw [List.pairwise_cons]
      constructor
      · intro b hb
        rcases mem_insertByCountDesc.mp hb with hb | hb
        · subst hb
          omega
        · exact h.1 b hb
      · exact ih h.2

theorem pairwise_sortByCountDesc (l : List (String × Nat)) :
    (sortByCountDesc l).Pairwise (fun a b => b.2 ≤ a.2) := by
  induction l with
  | nil => simp [sortByCountDesc]
  | cons x xs ih =>
    rw [sortByCountDesc]
    exact pairwise_insertByCountDesc ih

theorem filter_insertByCountDesc_eq (x : String × Nat) (n : Nat)
    (l : List (String × Nat)) (hx : x.2 = n) :
    (insertByCountDesc x l).filter (fun p => decide (p.2 = n)) =
      x :: l.filter (fun p => decide (p.2 = n)) := by
  induction l with
  | nil => simp [insertByCountDesc, hx]
  | cons y ys ih =>
    rw [insertByCountDesc]
    split
    · rw [List.filter_cons_of_pos (by simp [hx])]
    · rename_i hgt
      push_neg at hgt
      have hyn : ¬ y.2 = n := by omega
      rw [List.filter_cons_of_neg (by simp [hyn])]
      rw [ih]
      rw [List.filter_cons_of_neg (by simp [hyn])]

theorem filter_insertByCountDesc_ne (x : String × Nat) (n : Nat)
    (l : List (String × Nat)) (hx : ¬ x.2 = n) :
    (insertByCountDesc x l).filter (fun p => decide (p.2 = n)) =
      l.filter (fun p => decide (p.2 = n)) := by
  induction l with
  | nil => simp [insertByCountDesc, hx]
  | cons y ys ih =>
    rw [insertByCountDesc]
    split
    · rw [List.filter_cons_of_neg (by simp [hx])]
    · by_cases hyn : y.2 = n
      · rw [List.filter_cons_of_pos (by simp [hyn]),
          List.filter_cons_of_pos (by simp [hyn]), ih]
      · rw [List.filter_cons_of_neg (by simp [hyn]),
          List.filter_cons_of_neg (by simp [hyn]), ih]

theorem sortByCountDesc_stable (l : List (String × Nat)) (n : Nat) :
    (sortByCountDesc l).filter (fun p => decide (p.2 = n)) =
      l.filter (fun p => decide (p.2 = n)) := by
  induction l with
  | nil => simp [sortByCountDesc]
  | cons x xs ih =>
    rw [sortByCountDesc]
    by_cases hx : x.2 = n
    · rw [filter_insertByCountDesc_eq x n _ hx, ih,
        List.filter_cons_of_pos (by simp [hx])]
    · rw [filter_insertByCountDesc_ne x n _ hx, ih,
        List.filter_cons_of_neg (by simp [hx])]

/-! ## C9 — `analyze_relationships` -/

/-- C9 counterexample: the claim says the top components are ranked by
degree with ties broken by *original component list order*.  With
components `[c1, c2]` and the single relationship `c2 → c1`, both
components have degree 1; the claimed tie-break yields `[c1, c2]`, but
the function returns `[c2, c1]` — the dict of connection counts is keyed
in order of first appearance among the relationships' endpoints (source
before target), which Python's stable sort preserves. -/
theorem analyze_relationships_tie_counterexample :
    (analyze_relationships [compX, compY] [relYX]).central_components.map (·.id)
      = ["c2", "c1"] ∧
    (["c2", "c1"] : List String) ≠ ["c1", "c2"] := by
  exact ⟨rfl, by decide⟩

/-- C9 amended: `analyze_relationships` is a pure function equal to its
specification `analyzeSpec`: it returns the count of relationships
grouped by type (keys in first-appearance order with their
multiplicities), the total count, and the top three components ranked by
degree — the degree of a component id being its number of occurrences
among the relationships' endpoints (in+out) — where ties are broken by
first-appearance order among those endpoints (source before target), not
by original component list order, and ids without a matching component
are skipped.  The second and third conjuncts pin the ranking: the sort
used is descending in the count and stable (it preserves the relative
order of entries with equal counts). -/
theorem analyze_relationships_characterization :
    (∀ (components : List Component) (relationships : List Relationship),
      analyze_relationships components relationships =
        analyzeSpec components relationships) ∧
    (∀ l : List (String × Nat),
      (sortByCountDesc l).Pairwise (fun a b => b.2 ≤ a.2)) ∧
    (∀ (l : List (String × Nat)) (n : Nat),
      (sortByCountDesc l).filter (fun p => decide (p.2 = n)) =
        l.filter (fun p => decide (p.2 = n))) := by
  refine ⟨?_, pairwise_sortByCountDesc, sortByCountDesc_stable⟩
  intro components relationships
  simp only [analyze_relationships, analyzeSpec]
  rw [foldl_bump_types, foldl_bump_endpoints]

end MLViz
